import Mathlib

/-!
Verification of the WhatsApp bulk-message sender (`app.py`).

The development shallowly embeds the orchestration core of `app.py`:

* phone-number normalization (`send_whatsapp_message`, lines 59-67),
* template rendering (`main`, line 253, Python `str.replace`),
* attachment validation and the media/text send paths with the
  video-to-image fallback (`send_whatsapp_message`, lines 69-133),
* the per-recipient delivery loop with the `whatsapp_open` flag
  (`main`, lines 245-296),
* the `try`/`finally` temporary-file cleanup (`main`, lines 298-308).

Python strings are embedded as Lean `String` (a structure over
`List Char`); the external world (the `pyautogui` session-open
sequence and the `pywhatkit` send calls) is a parameter of the run,
so that theorems quantify over every behavior of the channel.
All definitions are executable, so concrete runs evaluate by `decide`.
-/

namespace WASender

/-! ## Phone-number normalization (app.py lines 59-67) -/

/-- Line 60: `cleaned_number = ''.join(filter(str.isdigit, str(phone_number)))`. -/
def cleanPhone (s : String) : String := ⟨s.data.filter Char.isDigit⟩

/-- Lines 64-65: drop a leading `91` when the cleaned digits start with `91`
and are longer than 10 characters. -/
def stripCountryCode (d : String) : String :=
  if d.data.take 2 = ['9', '1'] ∧ 10 < d.data.length then ⟨d.data.drop 2⟩ else d

/-- Line 67: `formatted_number = f"+91{cleaned_number}"` applied to the
cleaned and stripped digits. -/
def formatNumber (phone : String) : String :=
  ⟨'+' :: '9' :: '1' :: (stripCountryCode (cleanPhone phone)).data⟩

/-! ## Template rendering (app.py line 253)

Line 253 is `message_template.replace("{{Name}}", str(row['Name']))`.
Python `str.replace` scans left to right and replaces each
non-overlapping occurrence of the pattern; `pyReplace` is that scan,
specialized to the literal pattern of the source. -/

/-- The placeholder literal of line 253, as a character list. -/
def placeholderL : List Char := ['\x7b', '\x7b', 'N', 'a', 'm', 'e', '\x7d', '\x7d']

/-- Python `template.replace("{{Name}}", rep)`: greedy left-to-right scan. -/
def pyReplace (rep : List Char) : List Char → List Char
  | '\x7b' :: '\x7b' :: 'N' :: 'a' :: 'm' :: 'e' :: '\x7d' :: '\x7d' :: rest =>
      rep ++ pyReplace rep rest
  | c :: rest => c :: pyReplace rep rest
  | [] => []

/-- Line 253: personalization of the message template. -/
def renderTemplate (template name : String) : String := ⟨pyReplace name.data template.data⟩

/-- Greedy decomposition of a string at placeholder occurrences: the
segments between the occurrences `pyReplace` would replace. -/
def splitName : List Char → List (List Char)
  | '\x7b' :: '\x7b' :: 'N' :: 'a' :: 'm' :: 'e' :: '\x7d' :: '\x7d' :: rest =>
      [] :: splitName rest
  | c :: rest =>
      match splitName rest with
      | [] => [[c]]
      | h :: r => (c :: h) :: r
  | [] => [[]]

/-- Whether the placeholder `\x7b\x7bName\x7d\x7d` occurs in a string. -/
def occursPH : List Char → Bool
  | '\x7b' :: '\x7b' :: 'N' :: 'a' :: 'm' :: 'e' :: '\x7d' :: '\x7d' :: _ => true
  | _ :: t => occursPH t
  | [] => false

/-- Interleave a separator between segments (`sep.join(segs)`). -/
def joinWith (sep : List Char) : List (List Char) → List Char
  | [] => []
  | [x] => x
  | x :: y :: rest => x ++ sep ++ joinWith sep (y :: rest)

/-- Whether `pat` occurs as a contiguous substring (Python `pat in s`,
used by line 111 `'sendwhats_video' in str(ae)`). -/
def listContains (pat : List Char) : List Char → Bool
  | [] => pat.isEmpty
  | c :: t => pat.isPrefixOf (c :: t) || listContains pat t

/-! ## Media files, the channel, and `send_whatsapp_message` -/

/-- Media classification of `main` lines 177-181: the `media_type`
string is either `'video'` or `'image'`. -/
inductive MediaType
  | image
  | video
deriving DecidableEq, Repr

/-- Lines 151 and 178: video extensions map to `Video`, every other
accepted extension to `Image`. -/
def videoExts : List String := ["mp4", "avi", "mov", "mkv"]

/-- Lines 177-181: `media_type` derived from the file extension. -/
def classifyMedia (ext : String) : MediaType :=
  if videoExts.contains ext then .video else .image

/-- A staged media file as `send_whatsapp_message` observes it:
its path, whether `os.path.exists` holds, and `os.path.getsize`. -/
structure MediaFile where
  path : String
  onDisk : Bool
  sizeBytes : Nat
deriving DecidableEq, Repr

/-- A Python exception as the handlers of lines 109-120 and 131-133
distinguish them: `AttributeError` (caught at line 109) versus any
other exception (only caught by the catch-all at line 131). -/
inductive PyExn
  | attributeError (msg : String)
  | otherError (msg : String)
deriving DecidableEq, Repr

/-- Python `str(e)` on an exception. -/
def PyExn.text : PyExn → String
  | .attributeError m => m
  | .otherError m => m

/-- A successful transmission performed by a `pywhatkit` call. -/
inductive ChannelAction
  | sentImage (receiver caption : String)
  | sentVideo (receiver caption : String)
  | sentText (phoneNo message : String)
deriving DecidableEq, Repr

/-- One behavior of the external `pywhatkit` mechanism for a single
call: whether `sendwhats_video` exists in this version, and which
exception (if any) each of the three send functions would raise. -/
structure Channel where
  videoSupported : Bool
  imageExn : Option PyExn
  videoExn : Option PyExn
  textExn : Option PyExn

/-- Result of `pywhatkit.sendwhats_image` (line 91): the successful
action, or the exception it raises. -/
def callImage (ch : Channel) (receiver caption : String) : Except PyExn ChannelAction :=
  match ch.imageExn with
  | some e => .error e
  | none => .ok (.sentImage receiver caption)

/-- Result of `pywhatkit.sendwhats_video` (line 101): when the
installed version lacks the attribute, the call raises an
`AttributeError` whose text names `sendwhats_video`. -/
def callVideo (ch : Channel) (receiver caption : String) : Except PyExn ChannelAction :=
  if ch.videoSupported then
    match ch.videoExn with
    | some e => .error e
    | none => .ok (.sentVideo receiver caption)
  else .error (.attributeError "module pywhatkit has no attribute sendwhats_video")

/-- Result of `pywhatkit.sendwhatmsg_instantly` (line 124). -/
def callText (ch : Channel) (phoneNo message : String) : Except PyExn ChannelAction :=
  match ch.textExn with
  | some e => .error e
  | none => .ok (.sentText phoneNo message)

/-- Return value of `send_whatsapp_message` together with the
transmissions that actually happened on the channel. -/
structure SendRes where
  ok : Bool
  detail : String
  actions : List ChannelAction
deriving DecidableEq, Repr

/-- Lines 131-133: the catch-all turns any exception into
`(False, f"Error sending message to {phone_number}: {str(e)}")`. -/
def errorResult (phone : String) (e : PyExn) : SendRes :=
  ⟨false, "Error sending message to " ++ phone ++ ": " ++ e.text, []⟩

/-- Line 79: `max_size_mb = 100 if media_type == 'video' else 16`. -/
def maxSizeMB : MediaType → Nat
  | .video => 100
  | .image => 16

/-- Lines 87-120: the media send. The `try` of line 88 wraps both the
image and the video call; its `except AttributeError` (line 109) falls
back to the image path when the exception text contains
`sendwhats_video`, and re-raises otherwise; every re-raised or other
exception reaches the catch-all of line 131. -/
def sendWithMedia (phone formatted message : String) (mt : MediaType) (ch : Channel) : SendRes :=
  let primary : Except PyExn SendRes :=
    match mt with
    | .image =>
        match callImage ch formatted message with
        | .ok a => .ok ⟨true, "Message with image sent to " ++ phone, [a]⟩
        | .error e => .error e
    | .video =>
        match callVideo ch formatted message with
        | .ok a => .ok ⟨true, "Message with video sent to " ++ phone, [a]⟩
        | .error e => .error e
  match primary with
  | .ok r => r
  | .error (.attributeError ae) =>
      if listContains "sendwhats_video".data ae.data then
        match callImage ch formatted message with
        | .ok a => ⟨true, "Message with media sent to " ++ phone, [a]⟩
        | .error e2 => errorResult phone e2
      else errorResult phone (.attributeError ae)
  | .error (.otherError oe) => errorResult phone (.otherError oe)

/-- Lines 45-133, `send_whatsapp_message`: normalize the number,
validate the optional media (existence, then the kind-specific size
ceiling of lines 79-81), then send through the matching path. -/
def send_whatsapp_message (phone message : String) (media : Option MediaFile)
    (mt : MediaType) (ch : Channel) : SendRes :=
  let formatted := formatNumber phone
  match media with
  | some m =>
      if m.onDisk = false then
        ⟨false, "Media file not found: " ++ m.path, []⟩
      else if maxSizeMB mt * 1024 * 1024 < m.sizeBytes then
        ⟨false, "Media file too large. Max size: " ++ toString (maxSizeMB mt) ++ "MB", []⟩
      else sendWithMedia phone formatted message mt ch
  | none =>
      match callText ch formatted message with
      | .ok a => ⟨true, "Text message sent to " ++ phone, [a]⟩
      | .error e => errorResult phone e

/-! ## The per-recipient loop (app.py lines 245-296) -/

/-- A recipient row: the `Name` and `Phone Number` columns. -/
structure Recipient where
  name : String
  phone : String
deriving DecidableEq, Repr

/-- What the loop body displays for one recipient: line 274
(`st.success` on a `True` return), line 276 (`st.error` on a `False`
return), or line 293 (`st.error` from the per-iteration `except`,
reached when the session-open sequence of lines 258-261 raises). -/
inductive Event
  | sent (detail : String)
  | failed (detail : String)
  | contactError
deriving DecidableEq, Repr

/-- The record of one loop iteration: the recipient, the displayed
event, and the channel transmissions performed for it. -/
structure IterRecord where
  recipient : Recipient
  event : Event
  actions : List ChannelAction
deriving DecidableEq, Repr

/-- The environment of a run: whether the session-open sequence
(lines 258-261) raises at iteration `i`, and the channel behavior
seen by the send of iteration `i`. -/
structure Env where
  openThrows : Nat → Bool
  channel : Nat → Channel

/-- The inputs of one click of `Send Messages`. -/
structure RunInput where
  recipients : List Recipient
  template : String
  media : Option MediaFile
  mediaType : MediaType

/-- Lines 253 and 265-270: render the template for a recipient and
call `send_whatsapp_message`, producing this iteration's record. -/
def deliverOutcome (inp : RunInput) (env : Env) (i : Nat) (r : Recipient) : IterRecord :=
  let msg := renderTemplate inp.template r.name
  let res := send_whatsapp_message r.phone msg inp.media inp.mediaType (env.channel i)
  ⟨r, if res.ok then .sent res.detail else .failed res.detail, res.actions⟩

/-- Lines 250-293: the `for` loop over recipients, carrying the
`whatsapp_open` flag. When the flag is down and the open sequence
raises, the per-iteration `except` records an error for this
recipient and the loop advances with the flag still down; otherwise
the flag is up from here on and the send runs. -/
def runFrom (inp : RunInput) (env : Env) : Nat → Bool → List Recipient → List IterRecord
  | _, _, [] => []
  | i, opened, r :: rest =>
      if !opened && env.openThrows i then
        ⟨r, .contactError, []⟩ :: runFrom inp env (i + 1) false rest
      else
        deliverOutcome inp env i r :: runFrom inp env (i + 1) true rest

/-- The whole loop: starts at iteration 0 with `whatsapp_open = False`
(line 246). -/
def runMainLoop (inp : RunInput) (env : Env) : List IterRecord :=
  runFrom inp env 0 false inp.recipients

/-- The `whatsapp_open` flag at entry of iteration `k`, for a loop
started at iteration `i0` with flag `b`: it is up as soon as one
earlier iteration ran its open sequence without an exception. -/
def openFlagAt (env : Env) (b : Bool) (i0 k : Nat) : Bool :=
  b || (List.range k).any fun j => !env.openThrows (i0 + j)

/-- The outcome list of a run in which the open sequence never raises:
one `deliverOutcome` per recipient, in order. -/
def outcomesFrom (inp : RunInput) (env : Env) : Nat → List Recipient → List IterRecord
  | _, [] => []
  | i, r :: rest => deliverOutcome inp env i r :: outcomesFrom inp env (i + 1) rest

/-- Whether the send of iteration `i` for recipient `r` returns `True`. -/
def sendOk (inp : RunInput) (env : Env) (i : Nat) (r : Recipient) : Bool :=
  (send_whatsapp_message r.phone (renderTemplate inp.template r.name)
    inp.media inp.mediaType (env.channel i)).ok

/-- Number of recipients whose send would return `False`. -/
def failCount (inp : RunInput) (env : Env) : Nat → List Recipient → Nat
  | _, [] => 0
  | i, r :: rest => (if sendOk inp env i r then 0 else 1) + failCount inp env (i + 1) rest

/-- Number of displayed successes (line 274) in a record list. -/
def countSent (evs : List IterRecord) : Nat :=
  evs.countP fun rec => match rec.event with | .sent _ => true | _ => false

/-- Number of displayed send failures (line 276) in a record list. -/
def countFailed (evs : List IterRecord) : Nat :=
  evs.countP fun rec => match rec.event with | .failed _ => true | _ => false

/-! ## The full run with cleanup (app.py lines 163-308) -/

/-- Which way the environment drives the body of the `try` of
line 166: every file-reading attempt fails (`return` at line 229),
the required columns are missing (`return` at line 235), an
exception escapes to the handler of line 298, or the loop runs to
the final banner of line 296. -/
inductive BodyPath
  | readFails
  | missingCols
  | outerRaises (msg : String)
  | normal

/-- The observable result of the `try` body. -/
inductive BodyResult
  | readFailed
  | missingColumns
  | outerError (msg : String)
  | completed (events : List IterRecord) (finalNote : String)
deriving DecidableEq

/-- Lines 166-299: the body of the `try`, ending in one of the four
ways. On the normal path the loop runs and line 296 displays the
fixed banner. -/
def runBody (inp : RunInput) (env : Env) : BodyPath → BodyResult
  | .readFails => .readFailed
  | .missingCols => .missingColumns
  | .outerRaises msg => .outerError msg
  | .normal => .completed (runMainLoop inp env) "Message sending completed!"

/-- Lines 301-308: the `finally` block. If a media file was staged
and still exists, `os.remove` is invoked once; a failing removal is
caught and reported as a warning (line 308). Returns the number of
removal invocations and the warnings. -/
def runCleanup (media : Option MediaFile) (removeFails : Bool) : Nat × List String :=
  match media with
  | none => (0, [])
  | some m =>
      if m.onDisk then
        if removeFails then (1, ["Could not delete temporary file"]) else (1, [])
      else (0, [])

/-- The outcome of one full run: the body result plus the cleanup
observations. -/
structure MainOutcome where
  body : BodyResult
  removeCalls : Nat
  cleanupWarnings : List String
deriving DecidableEq

/-- Lines 163-308, `main` after the `Send Messages` click with a file
present: the `try` body runs, then the `finally` cleanup runs on
every exit path. -/
def runMain (inp : RunInput) (env : Env) (path : BodyPath) (removeFails : Bool) : MainOutcome :=
  let b := runBody inp env path
  let c := runCleanup inp.media removeFails
  ⟨b, c.1, c.2⟩

/-! ## Renderer lemmas -/

theorem splitName_ne_nil (s : List Char) : splitName s ≠ [] := by
  induction s using splitName.induct with
  | case1 rest ih => simp [splitName]
  | case2 c rest hm h0 ih => exact absurd h0 ih
  | case3 c rest hm h r heq ih => simp [splitName.eq_2 c rest hm, heq]
  | case4 => simp [splitName]

theorem joinWith_cons_cons (sep : List Char) (c : Char) (h : List Char)
    (r : List (List Char)) : joinWith sep ((c :: h) :: r) = c :: joinWith sep (h :: r) := by
  cases r with
  | nil => rfl
  | cons y r' => simp [joinWith]

theorem splitName_join (s : List Char) : joinWith placeholderL (splitName s) = s := by
  induction s using splitName.induct with
  | case1 rest ih =>
      have hne := splitName_ne_nil rest
      rw [splitName]
      cases hs : splitName rest with
      | nil => exact absurd hs hne
      | cons h r =>
          rw [hs] at ih
          show joinWith placeholderL ([] :: h :: r) = placeholderL ++ rest
          rw [joinWith, List.nil_append, ih]
  | case2 c rest hm h0 ih => exact absurd h0 (splitName_ne_nil rest)
  | case3 c rest hm h r heq ih =>
      rw [splitName.eq_2 c rest hm, heq, joinWith_cons_cons]
      rw [heq] at ih
      rw [ih]
  | case4 => rfl

theorem pyReplace_eq_join (rep s : List Char) :
    pyReplace rep s = joinWith rep (splitName s) := by
  induction s using splitName.induct with
  | case1 rest ih =>
      have hne := splitName_ne_nil rest
      rw [splitName, pyReplace]
      cases hs : splitName rest with
      | nil => exact absurd hs hne
      | cons h r =>
          show rep ++ pyReplace rep rest = joinWith rep ([] :: h :: r)
          rw [joinWith, List.nil_append, ih, hs]
  | case2 c rest hm h0 ih => exact absurd h0 (splitName_ne_nil rest)
  | case3 c rest hm h r heq ih =>
      rw [splitName.eq_2 c rest hm, pyReplace.eq_2 rep c rest hm]
      rw [heq, joinWith_cons_cons]
      rw [heq] at ih
      rw [ih]
  | case4 => rfl

theorem splitName_head_append : ∀ s h r, splitName s = h :: r → ∃ u, s = h ++ u := by
  intro s
  induction s using splitName.induct with
  | case1 rest ih =>
      intro h r heq
      rw [splitName] at heq
      cases heq
      exact ⟨_, rfl⟩
  | case2 c rest hm h0 ih => exact absurd h0 (splitName_ne_nil rest)
  | case3 c rest hm h r heq ih =>
      intro h' r' heq'
      rw [splitName.eq_2 c rest hm, heq] at heq'
      cases heq'
      obtain ⟨u, hu⟩ := ih h r heq
      exact ⟨u, by simp [hu]⟩
  | case4 =>
      intro h r heq
      rw [splitName] at heq
      cases heq
      exact ⟨[], rfl⟩

theorem splitName_no_placeholder (s : List Char) :
    ∀ seg ∈ splitName s, occursPH seg = false := by
  induction s using splitName.induct with
  | case1 rest ih =>
      intro seg hseg
      rw [splitName] at hseg
      rcases List.mem_cons.mp hseg with h | h
      · simp [h, occursPH]
      · exact ih seg h
  | case2 c rest hm h0 ih => exact absurd h0 (splitName_ne_nil rest)
  | case3 c rest hm h r heq ih =>
      intro seg hseg
      rw [splitName.eq_2 c rest hm, heq] at hseg
      rcases List.mem_cons.mp hseg with hs | hs
      · subst hs
        have hh : occursPH h = false := ih h (by rw [heq]; exact List.mem_cons_self h r)
        rw [occursPH.eq_2]
        · exact hh
        · intro rest1 hc hrest
          obtain ⟨u, hu⟩ := splitName_head_append rest h r heq
          exact hm (rest1 ++ u) hc (by rw [hu, hrest]; simp)
      · exact ih seg (by rw [heq]; exact List.mem_cons_of_mem h hs)
  | case4 =>
      intro seg hseg
      rw [splitName] at hseg
      rcases List.mem_cons.mp hseg with h | h
      · simp [h, occursPH]
      · simp at h

/-! ## Normalization lemmas -/

theorem stripCountryCode_pos (d : String) (hc : d.data.take 2 = ['9', '1'])
    (hl : 10 < d.data.length) : stripCountryCode d = ⟨d.data.drop 2⟩ := by
  unfold stripCountryCode
  rw [if_pos ⟨hc, hl⟩]

theorem stripCountryCode_digits (s : String) :
    ∀ c ∈ (stripCountryCode (cleanPhone s)).data, c.isDigit = true := by
  intro c hc
  unfold stripCountryCode cleanPhone at hc
  split at hc
  · exact List.of_mem_filter (List.mem_of_mem_drop hc)
  · exact List.of_mem_filter hc

/-! ## Loop lemmas -/

theorem runFrom_length (inp : RunInput) (env : Env) :
    ∀ (recs : List Recipient) (i : Nat) (b : Bool),
      (runFrom inp env i b recs).length = recs.length := by
  intro recs
  induction recs with
  | nil => intro i b; rfl
  | cons r rest ih =>
      intro i b
      rw [runFrom]
      split <;> simp [ih]

theorem runFrom_no_throw (inp : RunInput) (env : Env)
    (hopen : ∀ j, env.openThrows j = false) :
    ∀ (recs : List Recipient) (i : Nat) (b : Bool),
      runFrom inp env i b recs = outcomesFrom inp env i recs := by
  intro recs
  induction recs with
  | nil => intro i b; rfl
  | cons r rest ih =>
      intro i b
      rw [runFrom, outcomesFrom]
      rw [hopen i]
      simp [ih]

theorem outcomesFrom_length (inp : RunInput) (env : Env) :
    ∀ (recs : List Recipient) (i : Nat),
      (outcomesFrom inp env i recs).length = recs.length := by
  intro recs
  induction recs with
  | nil => intro i; rfl
  | cons r rest ih => intro i; simp [outcomesFrom, ih]

theorem deliverOutcome_event (inp : RunInput) (env : Env) (i : Nat) (r : Recipient) :
    (deliverOutcome inp env i r).event =
      if sendOk inp env i r then
        Event.sent (send_whatsapp_message r.phone (renderTemplate inp.template r.name)
          inp.media inp.mediaType (env.channel i)).detail
      else
        Event.failed (send_whatsapp_message r.phone (renderTemplate inp.template r.name)
          inp.media inp.mediaType (env.channel i)).detail := rfl

theorem countFailed_outcomesFrom (inp : RunInput) (env : Env) :
    ∀ (recs : List Recipient) (i : Nat),
      countFailed (outcomesFrom inp env i recs) = failCount inp env i recs := by
  intro recs
  induction recs with
  | nil => intro i; rfl
  | cons r rest ih =>
      intro i
      rw [outcomesFrom, failCount]
      unfold countFailed at ih ⊢
      rw [List.countP_cons, ih]
      cases hok : sendOk inp env i r <;>
        simp [deliverOutcome_event, hok, Nat.add_comm]

theorem countSent_add_failCount (inp : RunInput) (env : Env) :
    ∀ (recs : List Recipient) (i : Nat),
      countSent (outcomesFrom inp env i recs) + failCount inp env i recs = recs.length := by
  intro recs
  induction recs with
  | nil => intro i; rfl
  | cons r rest ih =>
      intro i
      rw [outcomesFrom, failCount]
      unfold countSent at ih ⊢
      rw [List.countP_cons]
      have := ih (i + 1)
      cases hok : sendOk inp env i r <;>
        · simp only [deliverOutcome_event, hok]
          simp
          omega

theorem runFrom_recipient (inp : RunInput) (env : Env) :
    ∀ (recs : List Recipient) (i : Nat) (b : Bool) (k : Nat) (r : Recipient),
      recs[k]? = some r →
      ((runFrom inp env i b recs)[k]?).map IterRecord.recipient = some r := by
  intro recs
  induction recs with
  | nil => intro i b k r h; simp at h
  | cons r' rest ih =>
      intro i b k r h
      cases k with
      | zero =>
          simp at h
          subst h
          rw [runFrom]
          split <;> simp [deliverOutcome]
      | succ k =>
          simp at h
          rw [runFrom]
          split <;> simpa using ih (i + 1) _ k r h

theorem openFlagAt_succ (env : Env) (b : Bool) (i0 k : Nat) :
    openFlagAt env b i0 (k + 1) = openFlagAt env (b || !env.openThrows i0) (i0 + 1) k := by
  unfold openFlagAt
  rw [List.range_succ_eq_map]
  simp only [List.any_cons, List.any_map, Nat.add_zero]
  have hfun : ((fun j => !env.openThrows (i0 + j)) ∘ Nat.succ) =
      fun j => !env.openThrows (i0 + 1 + j) := by
    funext j
    show (!env.openThrows (i0 + (j + 1))) = !env.openThrows (i0 + 1 + j)
    have : i0 + (j + 1) = i0 + 1 + j := by omega
    rw [this]
  rw [hfun, Bool.or_assoc]

theorem openFlagAt_false_left {env : Env} {b : Bool} {i0 k : Nat}
    (h : openFlagAt env b i0 k = false) : b = false := by
  unfold openFlagAt at h
  exact (Bool.or_eq_false_iff.mp h).1

theorem runFrom_get?_contactError (inp : RunInput) (env : Env) :
    ∀ (recs : List Recipient) (i0 : Nat) (b : Bool) (k : Nat) (r : Recipient),
      recs[k]? = some r →
      openFlagAt env b i0 k = false →
      env.openThrows (i0 + k) = true →
      (runFrom inp env i0 b recs)[k]? = some ⟨r, .contactError, []⟩ := by
  intro recs
  induction recs with
  | nil => intro i0 b k r h _ _; simp at h
  | cons r' rest ih =>
      intro i0 b k r hget hflag hthrow
      cases k with
      | zero =>
          simp at hget
          subst hget
          have hb : b = false := openFlagAt_false_left hflag
          subst hb
          rw [Nat.add_zero] at hthrow
          rw [runFrom]
          simp [hthrow]
      | succ k =>
          have hb : b = false := openFlagAt_false_left hflag
          subst hb
          rw [openFlagAt_succ] at hflag
          have hb' : (false || !env.openThrows i0) = false := openFlagAt_false_left hflag
          have hthrow0 : env.openThrows i0 = true := by
            cases h0 : env.openThrows i0 with
            | false => rw [h0] at hb'; simp at hb'
            | true => rfl
          rw [hb'] at hflag
          simp at hget
          rw [runFrom]
          simp only [hthrow0, Bool.not_false, Bool.true_and, if_true]
          rw [List.getElem?_cons_succ]
          have harith : i0 + 1 + k = i0 + (k + 1) := by omega
          exact ih (i0 + 1) false k r hget hflag (by rw [harith]; exact hthrow)

/-! ## Send-level lemmas -/

theorem send_tooLarge (phone message : String) (m : MediaFile) (mt : MediaType)
    (ch : Channel) (hex : m.onDisk = true)
    (hbig : maxSizeMB mt * 1024 * 1024 < m.sizeBytes) :
    send_whatsapp_message phone message (some m) mt ch =
      ⟨false, "Media file too large. Max size: " ++ toString (maxSizeMB mt) ++ "MB", []⟩ := by
  simp [send_whatsapp_message, hex, hbig]

theorem send_withinLimit (phone message : String) (m : MediaFile) (mt : MediaType)
    (ch : Channel) (hex : m.onDisk = true)
    (hok : ¬ maxSizeMB mt * 1024 * 1024 < m.sizeBytes) :
    send_whatsapp_message phone message (some m) mt ch =
      sendWithMedia phone (formatNumber phone) message mt ch := by
  simp [send_whatsapp_message, hex, hok]

theorem runFrom_actions_nil (inp : RunInput) (env : Env) (m : MediaFile)
    (hm : inp.media = some m) (hex : m.onDisk = true)
    (hbig : maxSizeMB inp.mediaType * 1024 * 1024 < m.sizeBytes) :
    ∀ (recs : List Recipient) (i : Nat) (b : Bool),
      ∀ rec ∈ runFrom inp env i b recs, rec.actions = [] := by
  intro recs
  induction recs with
  | nil => intro i b rec h; simp [runFrom] at h
  | cons r rest ih =>
      intro i b rec h
      rw [runFrom] at h
      split at h <;>
        rcases List.mem_cons.mp h with h0 | h0
      · rw [h0]
      · exact ih (i + 1) false rec h0
      · rw [h0]
        show (deliverOutcome inp env i r).actions = []
        simp only [deliverOutcome, hm]
        rw [send_tooLarge r.phone (renderTemplate inp.template r.name) m
          inp.mediaType (env.channel i) hex hbig]
      · exact ih (i + 1) true rec h0

theorem outcomesFrom_tooLarge (inp : RunInput) (env : Env) (m : MediaFile)
    (hm : inp.media = some m) (hex : m.onDisk = true)
    (hbig : maxSizeMB inp.mediaType * 1024 * 1024 < m.sizeBytes) :
    ∀ (recs : List Recipient) (i : Nat),
      ∀ rec ∈ outcomesFrom inp env i recs,
        rec.event = .failed ("Media file too large. Max size: " ++
          toString (maxSizeMB inp.mediaType) ++ "MB") := by
  intro recs
  induction recs with
  | nil => intro i rec h; simp [outcomesFrom] at h
  | cons r rest ih =>
      intro i rec h
      rw [outcomesFrom] at h
      rcases List.mem_cons.mp h with h0 | h0
      · rw [h0]
        show (deliverOutcome inp env i r).event = _
        simp only [deliverOutcome, hm]
        rw [send_tooLarge r.phone (renderTemplate inp.template r.name) m
          inp.mediaType (env.channel i) hex hbig]
        rfl
      · exact ih (i + 1) rec h0

/-! ## Concrete fixtures for witnesses and counterexamples -/

/-- A channel on which every `pywhatkit` call succeeds. -/
def goodCh : Channel := ⟨true, none, none, none⟩

/-- A channel whose text send raises (a rejected send). -/
def textFailCh : Channel := ⟨true, none, none, some (.otherError "send rejected")⟩

/-- The end-to-end example rows of the specification. -/
def demoInp : RunInput :=
  ⟨[⟨"Asha", "9876543210"⟩, ⟨"Ravi", "919876543211"⟩],
    "Hi \x7b\x7bName\x7d\x7d!", none, .image⟩

/-- Everything succeeds and the session open never raises. -/
def demoEnv : Env := ⟨fun _ => false, fun _ => goodCh⟩

/-- The session-open sequence raises at iteration 0 only. -/
def envOpenFail1 : Env := ⟨fun i => i == 0, fun _ => goodCh⟩

/-- Every text send is rejected. -/
def envAllFail : Env := ⟨fun _ => false, fun _ => textFailCh⟩

/-- Delivery 1 (the second of three) fails, the rest succeed. -/
def envOneFail : Env := ⟨fun _ => false, fun i => if i = 1 then textFailCh else goodCh⟩

/-- Three recipients for the failure-isolation witness. -/
def threeInp : RunInput :=
  ⟨[⟨"Asha", "9876543210"⟩, ⟨"Ravi", "919876543211"⟩, ⟨"Mira", "9988776655"⟩],
    "Hi \x7b\x7bName\x7d\x7d!", none, .image⟩

/-- The placeholder token as a string. -/
def phString : String := "\x7b\x7bName\x7d\x7d"

/-- A 17 MiB image attachment (above the 16 MiB ceiling). -/
def bigImage : MediaFile := ⟨"temp/big.jpg", true, 17 * 1024 * 1024⟩

/-- A run staging the oversized image for the two demo recipients. -/
def bigImageInp : RunInput :=
  ⟨[⟨"Asha", "9876543210"⟩, ⟨"Ravi", "919876543211"⟩],
    "Hi \x7b\x7bName\x7d\x7d!", some bigImage, .image⟩

/-- A small staged video attachment. -/
def smallVideo : MediaFile := ⟨"temp/clip.mp4", true, 1000⟩

/-- A channel whose `pywhatkit` lacks `sendwhats_video`. -/
def chNoVideo : Channel := ⟨false, none, none, none⟩

/-- A channel whose video send raises a non-`AttributeError` exception. -/
def chVideoDown : Channel := ⟨true, none, some (.otherError "network down"), none⟩

/-! ## Claims -/

/-- C1: when the session-open sequence never raises, a delivery call
returning a failure never aborts the run: every recipient is
processed (the outcome list has length `N`, no early termination),
and when exactly one of the `N` deliveries fails the outcomes tally
`N - 1` sent and `1` failed. -/
theorem claim1_failure_isolation (inp : RunInput) (env : Env)
    (hopen : ∀ j, env.openThrows j = false) :
    (runMainLoop inp env).length = inp.recipients.length ∧
    (failCount inp env 0 inp.recipients = 1 →
      countSent (runMainLoop inp env) = inp.recipients.length - 1 ∧
      countFailed (runMainLoop inp env) = 1) := by
  unfold runMainLoop
  rw [runFrom_no_throw inp env hopen]
  constructor
  · exact outcomesFrom_length inp env inp.recipients 0
  · intro h1
    have hf := countFailed_outcomesFrom inp env inp.recipients 0
    have hs := countSent_add_failCount inp env inp.recipients 0
    rw [h1] at hf hs
    exact ⟨by omega, hf⟩

/-- C1 witness: three recipients, the second delivery engineered to
fail; all three are processed, 2 sent, 1 failed. -/
theorem claim1_witness :
    (∀ j, envOneFail.openThrows j = false) ∧
    failCount threeInp envOneFail 0 threeInp.recipients = 1 ∧
    (runMainLoop threeInp envOneFail).length = 3 ∧
    countSent (runMainLoop threeInp envOneFail) = 2 ∧
    countFailed (runMainLoop threeInp envOneFail) = 1 := by
  have h := claim1_failure_isolation threeInp envOneFail (fun j => rfl)
  have h2 := h.2 (by decide)
  exact ⟨fun j => rfl, by decide, by rw [h.1]; rfl, by rw [h2.1]; rfl, h2.2⟩

/-- C2 counterexample: when the session-open sequence raises at
iteration 0, the run is not over with zero recipients processed —
the per-iteration handler catches the exception, the loop advances,
the open is retried at iteration 1, and a delivery is attempted
(and here succeeds) for the second recipient. -/
theorem claim2_counterexample :
    envOpenFail1.openThrows 0 = true ∧
    (runMainLoop demoInp envOpenFail1).length = 2 ∧
    (runMainLoop demoInp envOpenFail1)[0]? =
      some ⟨⟨"Asha", "9876543210"⟩, .contactError, []⟩ ∧
    (runMainLoop demoInp envOpenFail1)[1]? =
      some ⟨⟨"Ravi", "919876543211"⟩, .sent "Text message sent to 919876543211",
        [.sentText "+919876543211" "Hi Ravi!"]⟩ := by decide

/-- C2 (amended): a session-open failure is caught inside the
per-recipient loop, not escalated: the run still processes all `N`
recipients, and a recipient whose iteration starts with the session
closed and whose open attempt raises is recorded as an error with no
delivery attempted for it (empty action list); the open is simply
retried on later iterations. -/
theorem claim2_open_failure_isolated (inp : RunInput) (env : Env) :
    (runMainLoop inp env).length = inp.recipients.length ∧
    (∀ (k : Nat) (r : Recipient), inp.recipients[k]? = some r →
      openFlagAt env false 0 k = false → env.openThrows k = true →
      (runMainLoop inp env)[k]? = some ⟨r, .contactError, []⟩) := by
  constructor
  · exact runFrom_length inp env inp.recipients 0 false
  · intro k r hget hflag hthrow
    exact runFrom_get?_contactError inp env inp.recipients 0 false k r hget hflag
      (by rw [Nat.zero_add]; exact hthrow)

/-- C2 witness: the amended statement at the concrete two-recipient
run whose open attempt raises at iteration 0. -/
theorem claim2_witness :
    demoInp.recipients[0]? = some ⟨"Asha", "9876543210"⟩ ∧
    openFlagAt envOpenFail1 false 0 0 = false ∧
    envOpenFail1.openThrows 0 = true ∧
    (runMainLoop demoInp envOpenFail1)[0]? =
      some ⟨⟨"Asha", "9876543210"⟩, .contactError, []⟩ :=
  ⟨by decide, by decide, by decide,
    (claim2_open_failure_isolated demoInp envOpenFail1).2 0 ⟨"Asha", "9876543210"⟩
      (by decide) (by decide) (by decide)⟩

/-- C3: an attachment whose size exceeds its kind-specific ceiling
(16 MiB for image, 100 MiB for video, lines 79-81) makes every
recipient's validation fail with the too-large message and no
channel transmission happens for any recipient; an attachment within
the ceiling (a 50 MiB video) passes validation and reaches the send
stage. -/
theorem claim3_oversize_rejected (inp : RunInput) (env : Env) (m : MediaFile)
    (hm : inp.media = some m) (hex : m.onDisk = true)
    (hbig : maxSizeMB inp.mediaType * 1024 * 1024 < m.sizeBytes) :
    (∀ rec ∈ runMainLoop inp env, rec.actions = []) ∧
    ((∀ j, env.openThrows j = false) →
      ∀ rec ∈ runMainLoop inp env,
        rec.event = .failed ("Media file too large. Max size: " ++
          toString (maxSizeMB inp.mediaType) ++ "MB")) ∧
    (∀ (phone message path : String) (ch : Channel),
      send_whatsapp_message phone message (some ⟨path, true, 50 * 1024 * 1024⟩) .video ch =
        sendWithMedia phone (formatNumber phone) message .video ch) := by
  refine ⟨runFrom_actions_nil inp env m hm hex hbig inp.recipients 0 false, ?_, ?_⟩
  · intro hopen
    rw [runMainLoop, runFrom_no_throw inp env hopen]
    exact outcomesFrom_tooLarge inp env m hm hex hbig inp.recipients 0
  · intro phone message path ch
    exact send_withinLimit phone message ⟨path, true, 50 * 1024 * 1024⟩ .video ch rfl
      (by show ¬ (100 * 1024 * 1024 < 50 * 1024 * 1024); decide)

/-- C3 witness: the 17 MiB image of the specification example, for
two recipients on a healthy channel. -/
theorem claim3_witness :
    bigImageInp.media = some bigImage ∧
    bigImage.onDisk = true ∧
    maxSizeMB bigImageInp.mediaType * 1024 * 1024 < bigImage.sizeBytes ∧
    ((∀ rec ∈ runMainLoop bigImageInp demoEnv, rec.actions = []) ∧
     ((∀ j, demoEnv.openThrows j = false) →
       ∀ rec ∈ runMainLoop bigImageInp demoEnv,
         rec.event = .failed ("Media file too large. Max size: " ++
           toString (maxSizeMB bigImageInp.mediaType) ++ "MB")) ∧
     (∀ (phone message path : String) (ch : Channel),
       send_whatsapp_message phone message (some ⟨path, true, 50 * 1024 * 1024⟩) .video ch =
         sendWithMedia phone (formatNumber phone) message .video ch)) :=
  ⟨rfl, rfl, by decide,
    claim3_oversize_rejected bigImageInp demoEnv bigImage rfl rfl (by decide)⟩

/-- C4: for every run that stages an attachment still on disk, the
`finally` block invokes the removal exactly once on every exit path
(normal completion, early returns, or an exception reaching the
outer handler), a failing removal only produces a warning, and the
body outcome is unaffected by whether the removal fails (never
escalated). -/
theorem claim4_cleanup_exactly_once (inp : RunInput) (env : Env) (path : BodyPath)
    (removeFails : Bool) (m : MediaFile) (hm : inp.media = some m)
    (hex : m.onDisk = true) :
    (runMain inp env path removeFails).removeCalls = 1 ∧
    (removeFails = true →
      (runMain inp env path removeFails).cleanupWarnings =
        ["Could not delete temporary file"]) ∧
    (runMain inp env path true).body = (runMain inp env path false).body := by
  refine ⟨?_, ?_, rfl⟩
  · cases removeFails <;> simp [runMain, runCleanup, hm, hex]
  · intro hrf
    subst hrf
    simp [runMain, runCleanup, hm, hex]

/-- C4 witness: the staged oversized image, normal completion path,
with a failing removal. -/
theorem claim4_witness :
    bigImageInp.media = some bigImage ∧
    bigImage.onDisk = true ∧
    ((runMain bigImageInp demoEnv .normal true).removeCalls = 1 ∧
     (true = true →
       (runMain bigImageInp demoEnv .normal true).cleanupWarnings =
         ["Could not delete temporary file"]) ∧
     (runMain bigImageInp demoEnv .normal true).body =
       (runMain bigImageInp demoEnv .normal false).body) :=
  ⟨rfl, rfl, claim4_cleanup_exactly_once bigImageInp demoEnv .normal true bigImage rfl rfl⟩

/-- C5 counterexample: the final notice of line 296 is the fixed
string `Message sending completed!` whatever the outcomes are: a run
with 2 sent / 0 failed and a run with 0 sent / 2 failed end with the
identical completed notice, so the final summary contains no `Sent`
versus `Failed` counts. -/
theorem claim5_counterexample :
    countSent (runMainLoop demoInp demoEnv) = 2 ∧
    countFailed (runMainLoop demoInp demoEnv) = 0 ∧
    countSent (runMainLoop demoInp envAllFail) = 0 ∧
    countFailed (runMainLoop demoInp envAllFail) = 2 ∧
    runBody demoInp demoEnv .normal =
      .completed (runMainLoop demoInp demoEnv) "Message sending completed!" ∧
    runBody demoInp envAllFail .normal =
      .completed (runMainLoop demoInp envAllFail) "Message sending completed!" := by decide

/-- C5 (amended): every run that completes its loop ends with the
explicit fixed completion notice (never a silent stop), and the
per-recipient outcomes are emitted one per recipient in recipient
order; the notice itself carries no sent/failed counts. -/
theorem claim5_completion_notice (inp : RunInput) (env : Env) :
    runBody inp env .normal =
      .completed (runMainLoop inp env) "Message sending completed!" ∧
    (runMainLoop inp env).length = inp.recipients.length ∧
    (∀ (k : Nat) (r : Recipient), inp.recipients[k]? = some r →
      ((runMainLoop inp env)[k]?).map IterRecord.recipient = some r) := by
  refine ⟨rfl, runFrom_length inp env inp.recipients 0 false, ?_⟩
  intro k r h
  exact runFrom_recipient inp env inp.recipients 0 false k r h

/-- C5 witness: the order-preservation part at the concrete all-fail
run (0 of 2 succeeded, still reported per recipient). -/
theorem claim5_witness :
    demoInp.recipients[0]? = some ⟨"Asha", "9876543210"⟩ ∧
    ((runMainLoop demoInp envAllFail)[0]?).map IterRecord.recipient =
      some ⟨"Asha", "9876543210"⟩ :=
  ⟨by decide,
    (claim5_completion_notice demoInp envAllFail).2.2 0 ⟨"Asha", "9876543210"⟩ (by decide)⟩

/-- C6 counterexample: with `R.name` itself the placeholder token,
`render` returns a string that still contains `\x7b\x7bName\x7d\x7d`
although the template contained the placeholder, refuting the
no-placeholder-in-output clause. -/
theorem claim6_counterexample :
    occursPH phString.data = true ∧
    renderTemplate phString phString = phString ∧
    occursPH (renderTemplate phString phString).data = true := by decide

/-- C6 (amended): `render` replaces every literal occurrence of the
placeholder left to right with `R.name` and is content-preserving
outside the occurrences: the template decomposes into
placeholder-free segments joined by the placeholder, and the output
is exactly those segments joined by `R.name`; the output can still
contain the placeholder when `R.name` together with adjacent segment
content re-forms the token. -/
theorem claim6_render_segments (template name : String) :
    joinWith placeholderL (splitName template.data) = template.data ∧
    (renderTemplate template name).data = joinWith name.data (splitName template.data) ∧
    (splitName template.data).all (fun seg => !occursPH seg) = true := by
  refine ⟨splitName_join template.data, ?_, ?_⟩
  · show pyReplace name.data template.data = _
    exact pyReplace_eq_join name.data template.data
  · rw [List.all_eq_true]
    intro seg hseg
    rw [splitName_no_placeholder template.data seg hseg]
    rfl

/-- C7 counterexample: normalization is not idempotent on the code:
an 8-digit input gains a `91` prefix whose digits then survive a
second pass, which prefixes `91` again. -/
theorem claim7_counterexample :
    formatNumber (formatNumber "12345678") ≠ formatNumber "12345678" := by decide

/-- C7 (amended): normalization is idempotent for every address whose
cleaned and stripped digit core has at least 9 digits (in particular
every 10-digit national number); shorter cores re-trigger the `+91`
prefixing on a second pass. -/
theorem claim7_idempotent_long (s : String)
    (h : 9 ≤ (stripCountryCode (cleanPhone s)).data.length) :
    formatNumber (formatNumber s) = formatNumber s := by
  have hdig := stripCountryCode_digits s
  have hfilter : (stripCountryCode (cleanPhone s)).data.filter Char.isDigit =
      (stripCountryCode (cleanPhone s)).data :=
    List.filter_eq_self.mpr (fun a ha => by rw [hdig a ha])
  have c1 : Char.isDigit '+' = false := by decide
  have c2 : Char.isDigit '9' = true := by decide
  have c3 : Char.isDigit '1' = true := by decide
  have h1 : cleanPhone (formatNumber s) =
      ⟨'9' :: '1' :: (stripCountryCode (cleanPhone s)).data⟩ := by
    show (⟨('+' :: '9' :: '1' :: (stripCountryCode (cleanPhone s)).data).filter
      Char.isDigit⟩ : String) = _
    rw [List.filter_cons_of_neg, List.filter_cons_of_pos, List.filter_cons_of_pos, hfilter]
    · rw [c3]
    · rw [c2]
    · rw [c1]; exact Bool.false_ne_true
  have h2 : stripCountryCode ⟨'9' :: '1' :: (stripCountryCode (cleanPhone s)).data⟩ =
      ⟨('9' :: '1' :: (stripCountryCode (cleanPhone s)).data).drop 2⟩ := by
    refine stripCountryCode_pos _ rfl ?_
    show 10 < ('9' :: '1' :: (stripCountryCode (cleanPhone s)).data).length
    simp only [List.length_cons]
    omega
  show (⟨'+' :: '9' :: '1' ::
      (stripCountryCode (cleanPhone (formatNumber s))).data⟩ : String) = formatNumber s
  rw [h1, h2]
  rfl

/-- C7 witness: a plain 10-digit national number is a fixed point of
repeated normalization. -/
theorem claim7_witness :
    9 ≤ (stripCountryCode (cleanPhone "9876543210")).data.length ∧
    formatNumber (formatNumber "9876543210") = formatNumber "9876543210" :=
  ⟨by decide, claim7_idempotent_long "9876543210" (by decide)⟩

/-- C8: every normalized address is `+91` followed by digits only,
so the `+`-marked country-code prefix occurs exactly once; the two
example inputs of the specification normalize to `+919876543210`
and `+919876543211`. -/
theorem claim8_single_country_code :
    (∀ s : String, ∃ core : List Char,
      formatNumber s = ⟨'+' :: '9' :: '1' :: core⟩ ∧
      core.all Char.isDigit = true ∧
      (formatNumber s).data.count '+' = 1) ∧
    formatNumber "9876543210" = "+919876543210" ∧
    formatNumber "919876543211" = "+919876543211" := by
  refine ⟨fun s => ⟨(stripCountryCode (cleanPhone s)).data, rfl, ?_, ?_⟩, by decide, by decide⟩
  · rw [List.all_eq_true]
    intro c hc
    exact stripCountryCode_digits s c hc
  · show (('+' :: '9' :: '1' :: (stripCountryCode (cleanPhone s)).data).count '+') = 1
    have h0 : (stripCountryCode (cleanPhone s)).data.count '+' = 0 := by
      rw [List.count_eq_zero]
      intro hmem
      exact absurd (stripCountryCode_digits s _ hmem) (by decide)
    simp [List.count_cons, h0]

/-- C9: on a video delivery where the mechanism lacks
`sendwhats_video`, the call falls back to the image path and still
reports success with the media transmitted (never silently dropped);
a video-call exception that is not the missing-attribute
`AttributeError` is not converted into the fallback but becomes a
failure. -/
theorem claim9_video_fallback (phone message : String) (m : MediaFile) (ch : Channel)
    (hex : m.onDisk = true) (hsize : m.sizeBytes ≤ maxSizeMB .video * 1024 * 1024) :
    (ch.videoSupported = false → ch.imageExn = none →
      send_whatsapp_message phone message (some m) .video ch =
        ⟨true, "Message with media sent to " ++ phone,
          [.sentImage (formatNumber phone) message]⟩) ∧
    (∀ e : PyExn, ch.videoSupported = true → ch.videoExn = some e →
      (∀ ae, e = .attributeError ae → listContains "sendwhats_video".data ae.data = false) →
      send_whatsapp_message phone message (some m) .video ch = errorResult phone e) := by
  have hnotbig : ¬ (maxSizeMB .video * 1024 * 1024 < m.sizeBytes) := Nat.not_lt.mpr hsize
  have hsub : listContains "sendwhats_video".data
      "module pywhatkit has no attribute sendwhats_video".data = true := by decide
  constructor
  · intro hvs him
    simp [send_whatsapp_message, hex, hnotbig, sendWithMedia, callVideo, hvs,
      callImage, him, hsub]
  · intro e hvs hve hnot
    cases e with
    | attributeError ae =>
        have hae := hnot ae rfl
        simp [send_whatsapp_message, hex, hnotbig, sendWithMedia, callVideo, hvs, hve, hae]
    | otherError oe =>
        simp [send_whatsapp_message, hex, hnotbig, sendWithMedia, callVideo, hvs, hve]

/-- C9 witness: a small staged video on a channel without
`sendwhats_video` (fallback success) and on a channel whose video
call raises a non-`AttributeError` (plain failure). -/
theorem claim9_witness :
    smallVideo.onDisk = true ∧
    smallVideo.sizeBytes ≤ maxSizeMB .video * 1024 * 1024 ∧
    send_whatsapp_message "9876543210" "hello" (some smallVideo) .video chNoVideo =
      ⟨true, "Message with media sent to 9876543210",
        [.sentImage "+919876543210" "hello"]⟩ ∧
    send_whatsapp_message "9876543210" "hello" (some smallVideo) .video chVideoDown =
      errorResult "9876543210" (.otherError "network down") := by
  refine ⟨rfl, by decide, ?_, ?_⟩
  · have h := (claim9_video_fallback "9876543210" "hello" smallVideo chNoVideo rfl
      (by decide)).1 rfl rfl
    rw [h]
    decide
  · exact (claim9_video_fallback "9876543210" "hello" smallVideo chVideoDown rfl
      (by decide)).2 (.otherError "network down") rfl rfl (fun ae hae => nomatch hae)

/-- C10: address normalization is total: every input yields a string
starting with `+91`, an input with no digit at all yields exactly
`+91`, and the delivery attempt then proceeds with that address and
no further validation (the text send is performed to `+91`). -/
theorem claim10_normalize_total (s : String) :
    (formatNumber s).data.take 3 = ['+', '9', '1'] ∧
    ((∀ c ∈ s.data, c.isDigit = false) → formatNumber s = "+91") ∧
    ((∀ c ∈ s.data, c.isDigit = false) →
      ∀ (message : String) (mt : MediaType) (ch : Channel), ch.textExn = none →
        send_whatsapp_message s message none mt ch =
          ⟨true, "Text message sent to " ++ s, [.sentText "+91" message]⟩) := by
  have h91 : (∀ c ∈ s.data, c.isDigit = false) → formatNumber s = "+91" := by
    intro hnd
    have hnil : s.data.filter Char.isDigit = [] := by
      rw [List.filter_eq_nil_iff]
      intro a ha
      rw [hnd a ha]
      exact Bool.false_ne_true
    have hc : cleanPhone s = ⟨[]⟩ := by unfold cleanPhone; rw [hnil]
    show (⟨'+' :: '9' :: '1' :: (stripCountryCode (cleanPhone s)).data⟩ : String) = "+91"
    rw [hc]
    decide
  refine ⟨rfl, h91, ?_⟩
  intro hnd message mt ch htext
  have h9 := h91 hnd
  simp [send_whatsapp_message, callText, htext, h9]

/-- C10 witness: the all-non-digit address of the claim. -/
theorem claim10_witness :
    (∀ c ∈ ("abc-def!" : String).data, c.isDigit = false) ∧
    formatNumber "abc-def!" = "+91" ∧
    send_whatsapp_message "abc-def!" "hello" none .image goodCh =
      ⟨true, "Text message sent to abc-def!", [.sentText "+91" "hello"]⟩ := by
  refine ⟨by decide, ?_, ?_⟩
  · exact (claim10_normalize_total "abc-def!").2.1 (by decide)
  · exact (claim10_normalize_total "abc-def!").2.2 (by decide) "hello" .image goodCh rfl

end WASender
